import Mathlib

/-!
Verification of the Data Quality Dashboard check-execution and
result-classification engine (`run_checks.py`).

The embedding models, per the source:
  * `get_check_id`            (DQD.get_check_id)
  * `record_result`           (DQD.record_result)
  * `process_check`           (DQD.process_check)
  * `run_check`               (DQD.run_check)
  * table include/exclude filtering and check-name filtering (DQD.execute)
  * `evaluate_thresholds`     (DQD._evaluate_thresholds)
  * `summarize_results`       (DQD.summarize_results)

Numeric columns are modelled with `Int` (row counts) and `ℚ` (percentages,
thresholds); nullable columns are `Option`; a pandas frame is a `List` of
structures.  Whitespace-only cells, which the classifier normalises to NaN
with `replace(r'^\s*$', np.nan)`, are represented by `none` directly.
Query execution and the threshold/notes lookup against the rule-definition
tables (a pandas `eval` + `.item()` over dynamic columns) enter as function
parameters `runQuery` and `lookup`.  Steps of the classifier that raise a
Python exception are modelled with `Except.error`.
-/

/-- `s.replace(' ', '')` on a Python string. -/
def removeSpaces (s : String) : String := ⟨s.data.filter (fun c => c ≠ ' ')⟩

/-- `s.lower()` on a Python (ASCII) string. -/
def lowerString (s : String) : String := ⟨s.data.map Char.toLower⟩

/-- `s.upper()` on a Python (ASCII) string. -/
def upperString (s : String) : String := ⟨s.data.map Char.toUpper⟩

/-- `'_'.join(items)` on Python strings. -/
def joinUnderscore (items : List String) : String :=
  ⟨List.intercalate ['_'] (items.map String.data)⟩

/-- `DQD.get_check_id`: filter out `None` items, render each remaining item
with spaces removed, drop items that are empty after stripping, join with
underscores, lower-case the result. -/
def get_check_id (check_level check_name cdm_table_name : String)
    (cdm_field_name : Option String) (concept_id unit_concept_id : Option Int) :
    String :=
  let items : List (Option String) :=
    [some check_level, some check_name, some cdm_table_name, cdm_field_name,
     concept_id.map toString, unit_concept_id.map toString]
  let items := items.filterMap id
  let items := items.map removeSpaces
  let items := items.filter (fun s => s ≠ "")
  lowerString (joinUnderscore items)

/-- A rule-definition row (table-, field- or concept-level): the identifying
columns the engine reads.  Threshold/notes columns are reached only through
the classifier's lookup parameter. -/
structure RuleRow where
  cdmTableName : String
  cdmFieldName : Option String
  conceptId : Option Int
  unitConceptId : Option Int
deriving DecidableEq, Repr

/-- A check-description row; `evaluationFilter` is the predicate that the
source evaluates against rule-definition rows with `DataFrame.eval`. -/
structure CheckDescription where
  checkName : String
  checkLevel : String
  kahnCategory : String
  evaluationFilter : RuleRow → Bool

/-- The single row returned by a successfully executed check query. -/
structure QueryOut where
  num_violated_rows : Option Int
  pct_violated_rows : Option ℚ
  num_denominator_rows : Option Int
deriving DecidableEq, Repr

/-- `DQD.record_result` restricted to the columns the classifier and
summariser read (execution time, query text and the Kahn sub-fields are
carried through unchanged by the source and are omitted here). -/
structure CheckResult where
  checkName : String
  checkLevel : String
  cdmTableName : String
  cdmFieldName : Option String
  conceptId : Option Int
  unitConceptId : Option Int
  numViolatedRows : Option Int
  pctViolatedRows : Option ℚ
  numDenominatorRows : Option Int
  error : Option String
  category : String
  checkId : String
deriving DecidableEq, Repr

/-- `DQD.record_result`: numeric fields come from the query result when one
is present and stay null otherwise. -/
def record_result (check : RuleRow) (check_description : CheckDescription)
    (result : Option QueryOut) (error : Option String) : CheckResult :=
  { checkName := check_description.checkName
    checkLevel := check_description.checkLevel
    cdmTableName := check.cdmTableName
    cdmFieldName := check.cdmFieldName
    conceptId := check.conceptId
    unitConceptId := check.unitConceptId
    numViolatedRows := match result with
      | some r => r.num_violated_rows
      | none => none
    pctViolatedRows := match result with
      | some r => r.pct_violated_rows
      | none => none
    numDenominatorRows := match result with
      | some r => r.num_denominator_rows
      | none => none
    error := error
    category := check_description.kahnCategory
    checkId := get_check_id check_description.checkLevel
      check_description.checkName check.cdmTableName check.cdmFieldName
      check.conceptId check.unitConceptId }

/-- `DQD.process_check`: execute the query; on success record its single
row, on failure record the error message and leave the numeric fields
null.  The `try/except` of the source is the `Except` split here: both
branches return a result, so one failing instance never aborts the run. -/
def process_check (runQuery : CheckDescription → RuleRow → Except String QueryOut)
    (check_description : CheckDescription) (check : RuleRow) : CheckResult :=
  match runQuery check_description check with
  | .ok result => record_result check check_description (some result) none
  | .error msg => record_result check check_description none (some msg)

/-- `DQD.run_check`: select the matching rule-definition rows of the level's
table with `evaluationFilter` and process each; an unknown check level is
the source's `ValueError`. -/
def run_check (runQuery : CheckDescription → RuleRow → Except String QueryOut)
    (check_description : CheckDescription)
    (table_checks field_checks concept_checks : List RuleRow) :
    Except String (List CheckResult) :=
  if check_description.checkLevel = "TABLE" then
    .ok ((table_checks.filter check_description.evaluationFilter).map
      (process_check runQuery check_description))
  else if check_description.checkLevel = "FIELD" then
    .ok ((field_checks.filter check_description.evaluationFilter).map
      (process_check runQuery check_description))
  else if check_description.checkLevel = "CONCEPT" then
    .ok ((concept_checks.filter check_description.evaluationFilter).map
      (process_check runQuery check_description))
  else
    .error "Invalid check level"

/-- The default `tables_to_exclude` of `DQD.__init__` (note the first
entry). -/
def default_tables_to_exclude : List String :=
  ["CONCPT", "VOCABULARY", "CONCEPT_ANCESTOR", "CONCEPT_RELATIONSHIP",
   "CONCEPT_CLASS", "CONCEPT_SYNONYM", "RELATIONSHIP", "DOMAIN"]

/-- The include/exclude filtering `DQD.execute` applies to each of the three
rule-definition tables: when non-empty, each list is upper-cased and
matched against `cdmTableName`. -/
def filterByTables (tables_to_include tables_to_exclude : List String)
    (checks : List RuleRow) : List RuleRow :=
  let checks :=
    if tables_to_include.length > 0 then
      checks.filter (fun r =>
        decide (r.cdmTableName ∈ tables_to_include.map upperString))
    else checks
  if tables_to_exclude.length > 0 then
    checks.filter (fun r =>
      decide (r.cdmTableName ∉ tables_to_exclude.map upperString))
  else checks

/-- The per-description loop of `DQD.execute`, concatenating each
`run_check` output. -/
def collectResults (runQuery : CheckDescription → RuleRow → Except String QueryOut)
    (check_descriptions : List CheckDescription)
    (table_checks field_checks concept_checks : List RuleRow) :
    Except String (List CheckResult) :=
  match check_descriptions with
  | [] => .ok []
  | d :: rest =>
      match run_check runQuery d table_checks field_checks concept_checks with
      | .error msg => .error msg
      | .ok r =>
          match collectResults runQuery rest table_checks field_checks
              concept_checks with
          | .error msg => .error msg
          | .ok rs => .ok (r ++ rs)

/-- The check-selection and execution part of `DQD.execute`: include/exclude
filtering of the three rule tables, the hard-coded removal of the `offset`
field, the check-name filter, the fatal empty-catalog condition, then the
run loop. -/
def executeChecks (runQuery : CheckDescription → RuleRow → Except String QueryOut)
    (tables_to_include tables_to_exclude check_names : List String)
    (check_descriptions : List CheckDescription)
    (table_checks field_checks concept_checks : List RuleRow) :
    Except String (List CheckResult) :=
  let table_checks := filterByTables tables_to_include tables_to_exclude table_checks
  let field_checks := filterByTables tables_to_include tables_to_exclude field_checks
  let concept_checks := filterByTables tables_to_include tables_to_exclude concept_checks
  let field_checks := field_checks.filter (fun r => decide (r.cdmFieldName ≠ some "offset"))
  let check_descriptions :=
    if check_names.length > 0 then
      check_descriptions.filter (fun d => decide (d.checkName ∈ check_names))
    else check_descriptions
  if check_descriptions.length = 0 then
    .error "No checks are available based on excluded tables."
  else
    collectResults runQuery check_descriptions table_checks field_checks concept_checks

/-- A result row after the per-row loop of `DQD._evaluate_thresholds`
(lines setting `FAILED`, `IS_ERROR`, `THRESHOLD_VALUE`, `NOTES_VALUE`). -/
structure RowA extends CheckResult where
  FAILED : Nat
  IS_ERROR : Nat
  THRESHOLD_VALUE : Option ℚ
  NOTES_VALUE : Option String
deriving DecidableEq, Repr

/-- The per-row loop of `DQD._evaluate_thresholds`.  `lookup` abstracts the
resolution of the `<checkName>Threshold` / `<checkName>Notes` columns
against the matching rule-definition row (`none` when the column does not
exist or the cell is NA).  The branch order is the source's: execution
error first, then the naive zero/absent-threshold rule, then the
percentage rule; a NaN percentage compares false, as in pandas. -/
def stageA (lookup : CheckResult → Option ℚ × Option String) (r : CheckResult) : RowA :=
  let tv := (lookup r).1
  let nv := (lookup r).2
  if r.error.isSome then
    { toCheckResult := r, FAILED := 0, IS_ERROR := 1,
      THRESHOLD_VALUE := tv, NOTES_VALUE := nv }
  else if tv = none ∨ tv = some 0 then
    { toCheckResult := r,
      FAILED := if (match r.numViolatedRows with
          | some n => decide (n > 0)
          | none => false) then 1 else 0,
      IS_ERROR := 0, THRESHOLD_VALUE := tv, NOTES_VALUE := nv }
  else
    { toCheckResult := r,
      FAILED := if (match r.pctViolatedRows, tv with
          | some p, some t => decide (p * 100 > t)
          | _, _ => false) then 1 else 0,
      IS_ERROR := 0, THRESHOLD_VALUE := tv, NOTES_VALUE := nv }

/-- The `CDM_TABLE_NAME` column of the failed `cdmTable` results
(`missing_tables` in the source). -/
def missingTablesOf (a : List RowA) : List String :=
  (a.filter (fun r => decide (r.checkName = "cdmTable" ∧ r.FAILED = 1))).map
    (fun r => r.cdmTableName)

/-- The `(CDM_TABLE_NAME, CDM_FIELD_NAME)` pairs of the failed `cdmField`
results (`missing_fields` in the source).  The source additionally
requires `TABLE_IS_MISSING.isna()`, which holds for every row on any path
that reaches this point, since the classifier has already aborted when any
`cdmTable` check failed. -/
def missingFieldsOf (a : List RowA) : List (String × Option String) :=
  (a.filter (fun r => decide (r.checkName = "cdmField" ∧ r.FAILED = 1))).map
    (fun r => (r.cdmTableName, r.cdmFieldName))

/-- The final `FIELD_IS_MISSING` column: the left-merge on the
`missing_fields` keys followed by the mask keeping the value only for
non-`cdmField`, non-error rows. -/
def fieldIsMissing (mf : List (String × Option String)) (r : RowA) : Option Nat :=
  if r.checkName ≠ "cdmField" ∧ r.IS_ERROR = 0 ∧
      (r.cdmTableName, r.cdmFieldName) ∈ mf then some 1 else none

/-- The `empty_tables` selection: `measureValueCompleteness` results with a
zero denominator, no error, and not already field-missing (the
`TABLE_IS_MISSING.isna()` conjunct again holds for every row here). -/
def emptyTablesOf (mf : List (String × Option String)) (a : List RowA) : List String :=
  ((a.filter (fun r => decide (r.checkName = "measureValueCompleteness" ∧
      r.numDenominatorRows = some 0 ∧ r.IS_ERROR = 0 ∧
      fieldIsMissing mf r = none))).map (fun r => r.cdmTableName)).dedup

/-- The `empty_fields` selection: `measureValueCompleteness` results whose
denominator equals the violated-row count (both non-NA, as NaN compares
false in pandas) and that are not already field-missing; the
table-missing/table-empty conjuncts hold for every row on this path. -/
def emptyFieldsOf (mf : List (String × Option String)) (a : List RowA) :
    List (String × Option String) :=
  (a.filter (fun r => decide (r.checkName = "measureValueCompleteness" ∧
      r.numDenominatorRows ≠ none ∧
      r.numDenominatorRows = r.numViolatedRows ∧
      fieldIsMissing mf r = none))).map (fun r => (r.cdmTableName, r.cdmFieldName))

/-- The final `FIELD_IS_EMPTY` column: left-merge on the `empty_fields`
keys, masked to rows that are not themselves `measureValueCompleteness`,
`cdmField` or `isRequired` checks and carry no error. -/
def fieldIsEmpty (ef : List (String × Option String)) (r : RowA) : Option Nat :=
  if r.checkName ≠ "measureValueCompleteness" ∧ r.checkName ≠ "cdmField" ∧
      r.checkName ≠ "isRequired" ∧ r.IS_ERROR = 0 ∧
      (r.cdmTableName, r.cdmFieldName) ∈ ef then some 1 else none

/-- The `CONCEPT_IS_MISSING` column: CONCEPT-level rows without a unit
concept, a zero denominator, no error and none of the earlier conditions
(the table-missing/table-empty conjuncts hold for every row here). -/
def conceptIsMissing (mf ef : List (String × Option String)) (r : RowA) : Option Nat :=
  if r.IS_ERROR = 0 ∧ fieldIsMissing mf r = none ∧ fieldIsEmpty ef r = none ∧
      r.checkLevel = "CONCEPT" ∧ r.unitConceptId = none ∧
      r.numDenominatorRows = some 0 then some 1 else none

/-- The `CONCEPT_AND_UNIT_ARE_MISSING` column: as `conceptIsMissing` but
with a unit concept present. -/
def conceptAndUnitAreMissing (mf ef : List (String × Option String)) (r : RowA) :
    Option Nat :=
  if r.IS_ERROR = 0 ∧ fieldIsMissing mf r = none ∧ fieldIsEmpty ef r = none ∧
      r.checkLevel = "CONCEPT" ∧ r.unitConceptId ≠ none ∧
      r.numDenominatorRows = some 0 then some 1 else none

/-- Python's rendering of a nullable string cell inside `str.format`. -/
def pyCell (o : Option String) : String :=
  match o with
  | some s => s
  | none => "nan"

/-- Python's rendering of a nullable integer cell inside `str.format`. -/
def pyCellInt (o : Option Int) : String :=
  match o with
  | some i => toString i
  | none => "nan"

/-- Reason sentence of the table-missing condition. -/
def tableMissingReason (r : CheckResult) : String :=
  let t := r.cdmTableName
  s!"Table {t} does not exist."

/-- Reason sentence of the field-missing condition. -/
def fieldMissingReason (r : CheckResult) : String :=
  let t := r.cdmTableName
  let f := pyCell r.cdmFieldName
  s!"Field {t}.{f} does not exist."

/-- Reason sentence of the table-empty condition. -/
def tableEmptyReason (r : CheckResult) : String :=
  let t := r.cdmTableName
  s!"Table {t} is empty."

/-- Reason sentence of the field-empty condition. -/
def fieldEmptyReason (r : CheckResult) : String :=
  let t := r.cdmTableName
  let f := pyCell r.cdmFieldName
  s!"Field {t}.{f} is not populated."

/-- Reason sentence of the concept-missing condition. -/
def conceptMissingReason (r : CheckResult) : String :=
  let t := r.cdmTableName
  let f := pyCell r.cdmFieldName
  let c := pyCellInt r.conceptId
  s!"{f}={c} is missing from the {t} table."

/-- Reason sentence of the concept-and-unit-missing condition. -/
def conceptUnitMissingReason (r : CheckResult) : String :=
  let t := r.cdmTableName
  let f := pyCell r.cdmFieldName
  let c := pyCellInt r.conceptId
  let u := pyCellInt r.unitConceptId
  s!"Combination of {f}={c}, UNIT_CONCEPT_ID={u} and VALUE_AS_NUMBER IS NOT NULL is missing from the {t} table."

/-- A fully classified result row. -/
structure Classified extends RowA where
  PASSED : Nat
  NOT_APPLICABLE : Nat
  NOT_APPLICABLE_REASON : Option String
deriving DecidableEq, Repr

/-- The tail of `DQD._evaluate_thresholds` for one row, given the
`missing_fields` and `empty_fields` key sets: `NOT_APPLICABLE` is the
coalesce (`combine_first`) of the six condition columns filled with 0;
`NOT_APPLICABLE_REASON` is the `case_when` over the conditions in priority
order (table-missing and table-empty never hold on a completing run, since
the classifier aborts when they would); a not-applicable row has `FAILED`
forced back to 0, and `PASSED` is set iff no other flag is. -/
def finalizeRow (mf ef : List (String × Option String)) (r : RowA) : Classified :=
  let fm := fieldIsMissing mf r
  let fe := fieldIsEmpty ef r
  let cm := conceptIsMissing mf ef r
  let cum := conceptAndUnitAreMissing mf ef r
  let napp : Nat :=
    match ((fm.orElse (fun _ => fe)).orElse (fun _ => cm)).orElse (fun _ => cum) with
    | some v => v
    | none => 0
  let reason : Option String :=
    if fm.isSome then some (fieldMissingReason r.toCheckResult)
    else if fe.isSome then some (fieldEmptyReason r.toCheckResult)
    else if cm.isSome then some (conceptMissingReason r.toCheckResult)
    else if cum.isSome then some (conceptUnitMissingReason r.toCheckResult)
    else none
  let failed := if napp = 1 then 0 else r.FAILED
  { toRowA := { r with FAILED := failed },
    PASSED := if failed = 0 ∧ r.IS_ERROR = 0 ∧ napp = 0 then 1 else 0,
    NOT_APPLICABLE := napp,
    NOT_APPLICABLE_REASON := reason }

/-- `DQD._evaluate_thresholds`.  The two `Except.error` branches are the
crashes of the source: `missing_tables` is built with single brackets, so
it is a `Series`; `missing_tables['TABLE_IS_MISSING'] = 1` appends an
element instead of adding a column, the merge therefore adds no
`TABLE_IS_MISSING` column, and the subsequent read of
`check_results['TABLE_IS_MISSING']` raises `KeyError`.  `empty_tables` is
the numpy array returned by `.unique()`, and
`empty_tables['TABLE_IS_EMPTY'] = 1` raises `IndexError`.  On the paths
that complete, `TABLE_IS_MISSING` and `TABLE_IS_EMPTY` are NA for every
row. -/
def evaluate_thresholds (lookup : CheckResult → Option ℚ × Option String)
    (check_results : List CheckResult) : Except String (List Classified) :=
  let a := check_results.map (stageA lookup)
  if (missingTablesOf a).length > 0 then
    .error "KeyError: TABLE_IS_MISSING"
  else
    let mf := missingFieldsOf a
    if (emptyTablesOf mf a).length > 0 then
      .error "IndexError: TABLE_IS_EMPTY"
    else
      .ok (a.map (finalizeRow mf (emptyFieldsOf mf a)))

/-- The aggregate counts of `DQD.summarize_results`. -/
structure Overview where
  countTotal : Nat
  countThresholdFailed : Nat
  countErrorFailed : Nat
  countOverallFailed : Nat
  countPassed : Nat
  countTotalPlausibility : Nat
  countTotalConformance : Nat
  countTotalCompleteness : Nat
  countFailedPlausibility : Nat
  countFailedConformance : Nat
  countFailedCompleteness : Nat
  countPassedPlausibility : Nat
  countPassedConformance : Nat
  countPassedCompleteness : Nat
deriving DecidableEq, Repr

/-- `DQD.summarize_results`: pure counting over the classified rows;
`countPassed` is computed as `countTotal - countOverallFailed`. -/
def summarize_results (check_results : List Classified) : Overview :=
  let countTotal := check_results.length
  let countOverallFailed :=
    (check_results.filter (fun c => decide (c.FAILED = 1))).length
  { countTotal := countTotal
    countThresholdFailed :=
      (check_results.filter (fun c => decide (c.FAILED = 1 ∧ c.error = none))).length
    countErrorFailed :=
      (check_results.filter (fun c => decide (c.error ≠ none))).length
    countOverallFailed := countOverallFailed
    countPassed := countTotal - countOverallFailed
    countTotalPlausibility :=
      (check_results.filter (fun c => decide (c.category = "Plausibility"))).length
    countTotalConformance :=
      (check_results.filter (fun c => decide (c.category = "Conformance"))).length
    countTotalCompleteness :=
      (check_results.filter (fun c => decide (c.category = "Completeness"))).length
    countFailedPlausibility :=
      (check_results.filter (fun c =>
        decide (c.category = "Plausibility" ∧ c.FAILED = 1))).length
    countFailedConformance :=
      (check_results.filter (fun c =>
        decide (c.category = "Conformance" ∧ c.FAILED = 1))).length
    countFailedCompleteness :=
      (check_results.filter (fun c =>
        decide (c.category = "Completeness" ∧ c.FAILED = 1))).length
    countPassedPlausibility :=
      (check_results.filter (fun c =>
        decide (c.category = "Plausibility" ∧ c.PASSED = 1))).length
    countPassedConformance :=
      (check_results.filter (fun c =>
        decide (c.category = "Conformance" ∧ c.PASSED = 1))).length
    countPassedCompleteness :=
      (check_results.filter (fun c =>
        decide (c.category = "Completeness" ∧ c.PASSED = 1))).length }

/-- The classification-and-summary tail of `DQD.execute`. -/
def execute (runQuery : CheckDescription → RuleRow → Except String QueryOut)
    (lookup : CheckResult → Option ℚ × Option String)
    (tables_to_include tables_to_exclude check_names : List String)
    (check_descriptions : List CheckDescription)
    (table_checks field_checks concept_checks : List RuleRow) :
    Except String (List Classified × Overview) :=
  match executeChecks runQuery tables_to_include tables_to_exclude check_names
      check_descriptions table_checks field_checks concept_checks with
  | .error msg => .error msg
  | .ok raw =>
      match evaluate_thresholds lookup raw with
      | .error msg => .error msg
      | .ok classified => .ok (classified, summarize_results classified)

def c1Lookup : CheckResult → Option ℚ × Option String := fun _ => (none, none)

def c1CdmTableRes : CheckResult :=
  { checkName := "cdmTable", checkLevel := "TABLE", cdmTableName := "PERSON",
    cdmFieldName := none, conceptId := none, unitConceptId := none,
    numViolatedRows := some 1, pctViolatedRows := some 1,
    numDenominatorRows := some 1, error := none, category := "Conformance",
    checkId := "table_cdmtable_person" }

def c1DependentRes : CheckResult :=
  { checkName := "measureValueCompleteness", checkLevel := "FIELD",
    cdmTableName := "PERSON", cdmFieldName := some "birth_datetime",
    conceptId := none, unitConceptId := none,
    numViolatedRows := some 0, pctViolatedRows := some 0,
    numDenominatorRows := some 100, error := none, category := "Completeness",
    checkId := "field_measurevaluecompleteness_person_birth_datetime" }

def c4Lookup : CheckResult → Option ℚ × Option String := fun _ => (none, none)

def c4MvcRes : CheckResult :=
  { checkName := "measureValueCompleteness", checkLevel := "FIELD",
    cdmTableName := "PERSON", cdmFieldName := some "birth_datetime",
    conceptId := none, unitConceptId := none,
    numViolatedRows := some 0, pctViolatedRows := some 0,
    numDenominatorRows := some 0, error := none, category := "Completeness",
    checkId := "field_measurevaluecompleteness_person_birth_datetime" }

def c4DependentRes : CheckResult :=
  { checkName := "plausibleValueLow", checkLevel := "FIELD",
    cdmTableName := "PERSON", cdmFieldName := some "year_of_birth",
    conceptId := none, unitConceptId := none,
    numViolatedRows := some 0, pctViolatedRows := some 0,
    numDenominatorRows := some 100, error := none, category := "Plausibility",
    checkId := "field_plausiblevaluelow_person_year_of_birth" }

def c8Lookup : CheckResult → Option ℚ × Option String := fun _ => (none, none)

def c8ErrorRes : CheckResult :=
  { checkName := "measureValueCompleteness", checkLevel := "FIELD",
    cdmTableName := "PERSON", cdmFieldName := some "birth_datetime",
    conceptId := none, unitConceptId := none,
    numViolatedRows := none, pctViolatedRows := none,
    numDenominatorRows := none, error := some "connection failed",
    category := "Completeness",
    checkId := "field_measurevaluecompleteness_person_birth_datetime" }

/-- Mutually exclusive classification outcome of one result row. -/
def ExactlyOneFlag (c : Classified) : Prop :=
  (c.FAILED = 1 ∧ c.PASSED = 0 ∧ c.IS_ERROR = 0 ∧ c.NOT_APPLICABLE = 0) ∨
  (c.PASSED = 1 ∧ c.FAILED = 0 ∧ c.IS_ERROR = 0 ∧ c.NOT_APPLICABLE = 0) ∨
  (c.IS_ERROR = 1 ∧ c.FAILED = 0 ∧ c.PASSED = 0 ∧ c.NOT_APPLICABLE = 0) ∨
  (c.NOT_APPLICABLE = 1 ∧ c.FAILED = 0 ∧ c.PASSED = 0 ∧ c.IS_ERROR = 0)

def c2wLookup : CheckResult → Option ℚ × Option String := fun _ => (none, none)

def c2wRes : CheckResult :=
  { checkName := "measurePersonCompleteness", checkLevel := "TABLE",
    cdmTableName := "PERSON", cdmFieldName := none, conceptId := none,
    unitConceptId := none, numViolatedRows := some 0,
    pctViolatedRows := some 0, numDenominatorRows := some 100,
    error := none, category := "Completeness",
    checkId := "table_measurepersoncompleteness_person" }

def c2wOut : Classified :=
  { toRowA := { toCheckResult := c2wRes, FAILED := 0, IS_ERROR := 0,
                THRESHOLD_VALUE := none, NOTES_VALUE := none },
    PASSED := 1, NOT_APPLICABLE := 0, NOT_APPLICABLE_REASON := none }

def c3wLookup : CheckResult → Option ℚ × Option String :=
  fun _ => (some 4, none)

def c3wRes : CheckResult :=
  { checkName := "measureValueCompleteness", checkLevel := "FIELD",
    cdmTableName := "PERSON", cdmFieldName := some "birth_datetime",
    conceptId := none, unitConceptId := none, numViolatedRows := some 10,
    pctViolatedRows := some (1 / 20), numDenominatorRows := some 200,
    error := none, category := "Completeness",
    checkId := "field_measurevaluecompleteness_person_birth_datetime" }

def c5wQuery : CheckDescription → RuleRow → Except String QueryOut :=
  fun _ _ => .error "connection failed"

def c5wDesc : CheckDescription :=
  { checkName := "measurePersonCompleteness", checkLevel := "TABLE",
    kahnCategory := "Completeness", evaluationFilter := fun _ => true }

def c5wRow : RuleRow := ⟨"PERSON", none, none, none⟩

def c5wLookup : CheckResult → Option ℚ × Option String := fun _ => (none, none)

def c5wRes : CheckResult :=
  record_result c5wRow c5wDesc none (some "connection failed")

def c5wOut : Classified :=
  { toRowA := { toCheckResult := c5wRes, FAILED := 0, IS_ERROR := 1,
                THRESHOLD_VALUE := none, NOTES_VALUE := none },
    PASSED := 0, NOT_APPLICABLE := 0, NOT_APPLICABLE_REASON := none }

/-- The stage-A rows the cascade of `_evaluate_thresholds` operates on. -/
def classifierRows (lookup : CheckResult → Option ℚ × Option String)
    (rs : List CheckResult) : List RowA :=
  rs.map (stageA lookup)

/-- The `missing_fields` key set of a run. -/
def classifierMissingFields (lookup : CheckResult → Option ℚ × Option String)
    (rs : List CheckResult) : List (String × Option String) :=
  missingFieldsOf (classifierRows lookup rs)

/-- The `empty_fields` key set of a run. -/
def classifierEmptyFields (lookup : CheckResult → Option ℚ × Option String)
    (rs : List CheckResult) : List (String × Option String) :=
  emptyFieldsOf (classifierMissingFields lookup rs) (classifierRows lookup rs)

/-- `notApplicableReason` is the sentence of the first applicability
condition that holds for the row, in the priority order of the source's
`case_when` (the table-missing and table-empty conditions, priorities one
and three, never hold on a run that completes, because the classifier
aborts whenever they would; they are therefore absent here). -/
def ReasonFromPriority (mf ef : List (String × Option String)) (c : Classified) : Prop :=
  ∀ s, c.NOT_APPLICABLE_REASON = some s →
    ((fieldIsMissing mf c.toRowA).isSome ∧
      s = fieldMissingReason c.toCheckResult) ∨
    (fieldIsMissing mf c.toRowA = none ∧ (fieldIsEmpty ef c.toRowA).isSome ∧
      s = fieldEmptyReason c.toCheckResult) ∨
    (fieldIsMissing mf c.toRowA = none ∧ fieldIsEmpty ef c.toRowA = none ∧
      (conceptIsMissing mf ef c.toRowA).isSome ∧
      s = conceptMissingReason c.toCheckResult) ∨
    (fieldIsMissing mf c.toRowA = none ∧ fieldIsEmpty ef c.toRowA = none ∧
      conceptIsMissing mf ef c.toRowA = none ∧
      (conceptAndUnitAreMissing mf ef c.toRowA).isSome ∧
      s = conceptUnitMissingReason c.toCheckResult)

def c10wLookup : CheckResult → Option ℚ × Option String := fun _ => (none, none)

def c10wFieldRes : CheckResult :=
  { checkName := "cdmField", checkLevel := "FIELD", cdmTableName := "PERSON",
    cdmFieldName := some "birth_datetime", conceptId := none,
    unitConceptId := none, numViolatedRows := some 1, pctViolatedRows := some 1,
    numDenominatorRows := some 1, error := none, category := "Conformance",
    checkId := "field_cdmfield_person_birth_datetime" }

def c10wDepRes : CheckResult :=
  { checkName := "plausibleValueLow", checkLevel := "FIELD",
    cdmTableName := "PERSON", cdmFieldName := some "birth_datetime",
    conceptId := none, unitConceptId := none, numViolatedRows := some 0,
    pctViolatedRows := some 0, numDenominatorRows := some 50, error := none,
    category := "Plausibility",
    checkId := "field_plausiblevaluelow_person_birth_datetime" }

def c10wOut1 : Classified :=
  { toRowA := { toCheckResult := c10wFieldRes, FAILED := 1, IS_ERROR := 0,
                THRESHOLD_VALUE := none, NOTES_VALUE := none },
    PASSED := 0, NOT_APPLICABLE := 0, NOT_APPLICABLE_REASON := none }

def c10wOut2 : Classified :=
  { toRowA := { toCheckResult := c10wDepRes, FAILED := 0, IS_ERROR := 0,
                THRESHOLD_VALUE := none, NOTES_VALUE := none },
    PASSED := 0, NOT_APPLICABLE := 1,
    NOT_APPLICABLE_REASON := some "Field PERSON.birth_datetime does not exist." }

def c7wQuery : CheckDescription → RuleRow → Except String QueryOut :=
  fun _ _ => .ok ⟨some 0, some 0, some 100⟩

def c7wLookup : CheckResult → Option ℚ × Option String := fun _ => (none, none)

def c7wDesc : CheckDescription :=
  { checkName := "measurePersonCompleteness", checkLevel := "TABLE",
    kahnCategory := "Completeness", evaluationFilter := fun _ => true }

def c7wTables : List RuleRow :=
  [⟨"PERSON", none, none, none⟩, ⟨"OBSERVATION", none, none, none⟩]

def c7wRes : CheckResult :=
  record_result ⟨"OBSERVATION", none, none, none⟩ c7wDesc
    (some ⟨some 0, some 0, some 100⟩) none

def c7wOut : Classified :=
  { toRowA := { toCheckResult := c7wRes, FAILED := 0, IS_ERROR := 0,
                THRESHOLD_VALUE := none, NOTES_VALUE := none },
    PASSED := 1, NOT_APPLICABLE := 0, NOT_APPLICABLE_REASON := none }

def c7wOv : Overview := summarize_results [c7wOut]

/-- The claim's reading of the id: the lower-cased, space-stripped
components, with components that are null, or empty after space removal,
omitted. -/
def check_id_components (check_level check_name cdm_table_name : String)
    (cdm_field_name : Option String) (concept_id unit_concept_id : Option Int) :
    List String :=
  (([some check_level, some check_name, some cdm_table_name, cdm_field_name,
     concept_id.map toString, unit_concept_id.map toString].filterMap id).map
    (fun s => lowerString (removeSpaces s))).filter (fun s => s ≠ "")

/-- No two adjacent underscores anywhere in the character list. -/
def noDoubleUnderscore : List Char → Bool
  | c1 :: c2 :: rest => !(c1 = '_' && c2 = '_') && noDoubleUnderscore (c2 :: rest)
  | _ => true

/-- No leading, trailing or doubled underscore. -/
def NoStray (l : List Char) : Prop :=
  l.head? ≠ some '_' ∧ l.getLast? ≠ some '_' ∧ noDoubleUnderscore l = true

instance decidableNoStray (l : List Char) : Decidable (NoStray l) :=
  inferInstanceAs (Decidable (l.head? ≠ some '_' ∧ l.getLast? ≠ some '_' ∧
    noDoubleUnderscore l = true))

/-- Claim C1, evaluated at a failing input.  A classified result set in
which a `cdmTable` result failed for table `PERSON` never marks the other
`PERSON` results not-applicable: the classifier crashes instead.  The
source builds `missing_tables` with single brackets, so the
`TABLE_IS_MISSING` assignment adds a Series element instead of a column,
the merge adds no column, and reading `check_results['TABLE_IS_MISSING']`
raises `KeyError` whenever `missing_tables` is non-empty — that is,
exactly when some `cdmTable` check failed. -/
theorem c1_table_missing_cascade_crashes :
    (stageA c1Lookup c1CdmTableRes).FAILED = 1 ∧
    c1CdmTableRes.checkName = "cdmTable" ∧
    c1DependentRes.cdmTableName = c1CdmTableRes.cdmTableName ∧
    c1DependentRes.error = none ∧
    evaluate_thresholds c1Lookup [c1CdmTableRes, c1DependentRes] =
      .error "KeyError: TABLE_IS_MISSING" := by
  refine ⟨rfl, rfl, rfl, rfl, ?_⟩
  rfl

/-- Claim C4, evaluated at a failing input.  A `measureValueCompleteness`
result with a zero denominator, no error and no missing table/field never
marks its table empty: the classifier crashes instead.  `empty_tables` is
the numpy array returned by `.unique()`, and indexing it with the string
`'TABLE_IS_EMPTY'` raises `IndexError` whenever the array is non-empty —
that is, exactly when the table-empty condition holds for some result. -/
theorem c4_table_empty_cascade_crashes :
    c4MvcRes.checkName = "measureValueCompleteness" ∧
    c4MvcRes.numDenominatorRows = some 0 ∧
    c4MvcRes.error = none ∧
    c4DependentRes.cdmTableName = c4MvcRes.cdmTableName ∧
    evaluate_thresholds c4Lookup [c4MvcRes, c4DependentRes] =
      .error "IndexError: TABLE_IS_EMPTY" := by
  refine ⟨rfl, rfl, rfl, rfl, ?_⟩
  rfl

/-- Claim C8 is false as stated: on the classified result set produced from
a single errored result, `summarize_results` reports `countPassed = 1`
(it computes `countTotal - countOverallFailed`) while no result has
`passed = 1` — the error row has `isError = 1` and `passed = 0`. -/
theorem c8_countPassed_counterexample :
    (evaluate_thresholds c8Lookup [c8ErrorRes]).map (fun out =>
      ((summarize_results out).countPassed,
       (out.filter (fun c => decide (c.PASSED = 1))).length)) = .ok (1, 0) := by
  rfl

/-- Claim C8, amended: `countPassed` is `countTotal - countOverallFailed`,
i.e. the number of classified results whose `failed` flag is not 1 — a
count that also includes error and not-applicable results.  (The
summariser is a pure function of the classified result set and returns
only counts, so it cannot mutate the set it aggregates.) -/
theorem c8_countPassed_amended (check_results : List Classified) :
    (summarize_results check_results).countPassed =
      (check_results.filter (fun c => decide (c.FAILED ≠ 1))).length := by
  show check_results.length -
      (check_results.filter (fun c => decide (c.FAILED = 1))).length = _
  induction check_results with
  | nil => rfl
  | cons c cs ih =>
      have hle := List.length_filter_le (fun x => decide (x.FAILED = 1)) cs
      simp only [decide_not] at ih
      by_cases h : c.FAILED = 1 <;> simp [List.filter_cons, h] <;> omega

/-- Claim C9: the default `tables_to_exclude` contains the misspelled entry
`CONCPT` and not `CONCEPT`, so with default arguments rule-definition rows
for the `CONCEPT` table survive the exclude filter, while the seven other
vocabulary tables are removed. -/
theorem c9_default_exclusions_misspell_concept :
    "CONCPT" ∈ default_tables_to_exclude ∧
    "CONCEPT" ∉ default_tables_to_exclude ∧
    "CONCEPT" ∉ default_tables_to_exclude.map upperString ∧
    filterByTables [] default_tables_to_exclude
      [⟨"CONCEPT", none, none, none⟩, ⟨"VOCABULARY", none, none, none⟩,
       ⟨"CONCEPT_ANCESTOR", none, none, none⟩,
       ⟨"CONCEPT_RELATIONSHIP", none, none, none⟩,
       ⟨"CONCEPT_CLASS", none, none, none⟩,
       ⟨"CONCEPT_SYNONYM", none, none, none⟩,
       ⟨"RELATIONSHIP", none, none, none⟩, ⟨"DOMAIN", none, none, none⟩] =
      [⟨"CONCEPT", none, none, none⟩] := by
  refine ⟨by decide, by decide, by decide, ?_⟩
  rfl

lemma stageA_toCheckResult (lookup : CheckResult → Option ℚ × Option String)
    (r : CheckResult) : (stageA lookup r).toCheckResult = r := by
  simp only [stageA]
  split_ifs <;> rfl

lemma stageA_FAILED_cases (lookup : CheckResult → Option ℚ × Option String)
    (r : CheckResult) : (stageA lookup r).FAILED = 0 ∨ (stageA lookup r).FAILED = 1 := by
  simp only [stageA]
  split_ifs <;> simp

lemma stageA_IS_ERROR_cases (lookup : CheckResult → Option ℚ × Option String)
    (r : CheckResult) : (stageA lookup r).IS_ERROR = 0 ∨ (stageA lookup r).IS_ERROR = 1 := by
  simp only [stageA]
  split_ifs <;> simp

lemma stageA_error_imp (lookup : CheckResult → Option ℚ × Option String)
    (r : CheckResult) : (stageA lookup r).IS_ERROR = 1 → (stageA lookup r).FAILED = 0 := by
  simp only [stageA]
  split_ifs <;> simp

lemma stageA_of_error (lookup : CheckResult → Option ℚ × Option String)
    (r : CheckResult) (h : r.error.isSome) :
    (stageA lookup r).IS_ERROR = 1 ∧ (stageA lookup r).FAILED = 0 := by
  simp [stageA, h]

lemma fieldIsMissing_cases (mf : List (String × Option String)) (r : RowA) :
    fieldIsMissing mf r = none ∨
      (fieldIsMissing mf r = some 1 ∧ r.IS_ERROR = 0) := by
  unfold fieldIsMissing
  split_ifs with h
  · exact .inr ⟨rfl, h.2.1⟩
  · exact .inl rfl

lemma fieldIsEmpty_cases (ef : List (String × Option String)) (r : RowA) :
    fieldIsEmpty ef r = none ∨ (fieldIsEmpty ef r = some 1 ∧ r.IS_ERROR = 0) := by
  unfold fieldIsEmpty
  split_ifs with h
  · exact .inr ⟨rfl, h.2.2.2.1⟩
  · exact .inl rfl

lemma conceptIsMissing_cases (mf ef : List (String × Option String)) (r : RowA) :
    conceptIsMissing mf ef r = none ∨
      (conceptIsMissing mf ef r = some 1 ∧ r.IS_ERROR = 0) := by
  unfold conceptIsMissing
  split_ifs with h
  · exact .inr ⟨rfl, h.1⟩
  · exact .inl rfl

lemma conceptAndUnitAreMissing_cases (mf ef : List (String × Option String)) (r : RowA) :
    conceptAndUnitAreMissing mf ef r = none ∨
      (conceptAndUnitAreMissing mf ef r = some 1 ∧ r.IS_ERROR = 0) := by
  unfold conceptAndUnitAreMissing
  split_ifs with h
  · exact .inr ⟨rfl, h.1⟩
  · exact .inl rfl

lemma finalizeRow_exclusive (mf ef : List (String × Option String)) (r : RowA)
    (hf : r.FAILED = 0 ∨ r.FAILED = 1)
    (he : r.IS_ERROR = 0 ∨ r.IS_ERROR = 1)
    (hef : r.IS_ERROR = 1 → r.FAILED = 0) :
    ExactlyOneFlag (finalizeRow mf ef r) := by
  rcases fieldIsMissing_cases mf r with h1 | ⟨h1, he1⟩ <;>
    rcases fieldIsEmpty_cases ef r with h2 | ⟨h2, he2⟩ <;>
    rcases conceptIsMissing_cases mf ef r with h3 | ⟨h3, he3⟩ <;>
    rcases conceptAndUnitAreMissing_cases mf ef r with h4 | ⟨h4, he4⟩ <;>
    rcases hf with hf | hf <;> rcases he with he | he <;>
    simp_all [ExactlyOneFlag, finalizeRow, Option.orElse]

lemma evaluate_thresholds_ok (lookup : CheckResult → Option ℚ × Option String)
    (rs : List CheckResult) (out : List Classified)
    (h : evaluate_thresholds lookup rs = .ok out) :
    missingTablesOf (rs.map (stageA lookup)) = [] ∧
    emptyTablesOf (missingFieldsOf (rs.map (stageA lookup)))
      (rs.map (stageA lookup)) = [] ∧
    out = (rs.map (stageA lookup)).map
      (finalizeRow (missingFieldsOf (rs.map (stageA lookup)))
        (emptyFieldsOf (missingFieldsOf (rs.map (stageA lookup)))
          (rs.map (stageA lookup)))) := by
  simp only [evaluate_thresholds] at h
  split at h
  · exact absurd h (by simp)
  · split at h
    · exact absurd h (by simp)
    · rename_i h1 h2
      injection h with h
      refine ⟨?_, ?_, h.symm⟩
      · exact List.length_eq_zero.mp (Nat.eq_zero_of_not_pos h1)
      · exact List.length_eq_zero.mp (Nat.eq_zero_of_not_pos h2)

/-- Claim C2: after classification completes, every result has exactly one
of the four flags `failed`, `passed`, `isError`, `notApplicable` equal
to 1 and the other three equal to 0. -/
theorem c2_classification_exclusive
    (lookup : CheckResult → Option ℚ × Option String)
    (rs : List CheckResult) (out : List Classified)
    (h : evaluate_thresholds lookup rs = .ok out)
    (c : Classified) (hc : c ∈ out) : ExactlyOneFlag c := by
  obtain ⟨-, -, hout⟩ := evaluate_thresholds_ok lookup rs out h
  subst hout
  rcases List.mem_map.mp hc with ⟨ra, hra, rfl⟩
  rcases List.mem_map.mp hra with ⟨x, _, rfl⟩
  exact finalizeRow_exclusive _ _ _ (stageA_FAILED_cases _ _)
    (stageA_IS_ERROR_cases _ _) (stageA_error_imp _ _)

/-- Witness for C2 at a concrete one-row run. -/
theorem c2_classification_exclusive_witness :
    evaluate_thresholds c2wLookup [c2wRes] = .ok [c2wOut] ∧
    c2wOut ∈ [c2wOut] ∧ ExactlyOneFlag c2wOut :=
  ⟨rfl, List.mem_singleton.mpr rfl,
    c2_classification_exclusive c2wLookup [c2wRes] [c2wOut] rfl c2wOut
      (List.mem_singleton.mpr rfl)⟩

/-- Claim C3: for a result without an execution error, when the resolved
threshold is null or zero the check fails exactly when the violated-row
count is positive; otherwise it fails exactly when
`pctViolatedRows * 100 > thresholdValue` — so `pctViolatedRows = 0.05`
with threshold 5 does not fail while threshold 4 does. -/
theorem c3_threshold_fail_rule (lookup : CheckResult → Option ℚ × Option String)
    (r : CheckResult) (h : r.error = none) :
    (((lookup r).1 = none ∨ (lookup r).1 = some 0) →
      ((stageA lookup r).FAILED = 1 ↔
        ∃ n, r.numViolatedRows = some n ∧ 0 < n)) ∧
    (∀ t : ℚ, (lookup r).1 = some t → t ≠ 0 →
      ((stageA lookup r).FAILED = 1 ↔
        ∃ p, r.pctViolatedRows = some p ∧ p * 100 > t)) ∧
    ((lookup r).1 = some 5 → r.pctViolatedRows = some (1 / 20) →
      (stageA lookup r).FAILED = 0) ∧
    ((lookup r).1 = some 4 → r.pctViolatedRows = some (1 / 20) →
      (stageA lookup r).FAILED = 1) := by
  have he : r.error.isSome = false := by simp [h]
  refine ⟨?_, ?_, ?_, ?_⟩
  · intro ht
    simp only [stageA, he, Bool.false_eq_true, if_false, if_pos ht]
    cases hnv : r.numViolatedRows with
    | none => simp
    | some n => simp [decide_eq_true_eq]
  · intro t ht hnz
    simp only [stageA, he, Bool.false_eq_true, if_false, ht]
    cases hp : r.pctViolatedRows with
    | none => simp [hnz]
    | some p =>
        simp only [hnz, Option.some.injEq, reduceCtorEq, or_self, if_false,
          false_or, if_neg hnz]
        split_ifs with hcmp
        · simp only [decide_eq_true_eq] at hcmp
          simp [hcmp]
        · simp only [decide_eq_true_eq] at hcmp
          simp [hcmp]
  · intro ht hp
    norm_num [stageA, he, ht, hp]
    simp
  · intro ht hp
    norm_num [stageA, he, ht, hp]
    simp

/-- Witness for C3: with `pctViolatedRows = 1/20` and threshold 4 the
boundary case fails. -/
theorem c3_threshold_fail_rule_witness :
    c3wRes.error = none ∧ (stageA c3wLookup c3wRes).FAILED = 1 :=
  ⟨rfl, (c3_threshold_fail_rule c3wLookup c3wRes rfl).2.2.2 rfl rfl⟩

lemma finalizeRow_of_error (mf ef : List (String × Option String)) (r : RowA)
    (hE : r.IS_ERROR = 1) (hF : r.FAILED = 0) :
    (finalizeRow mf ef r).IS_ERROR = 1 ∧ (finalizeRow mf ef r).FAILED = 0 ∧
    (finalizeRow mf ef r).PASSED = 0 ∧
    (finalizeRow mf ef r).NOT_APPLICABLE = 0 := by
  rcases fieldIsMissing_cases mf r with h1 | ⟨h1, he1⟩ <;>
    rcases fieldIsEmpty_cases ef r with h2 | ⟨h2, he2⟩ <;>
    rcases conceptIsMissing_cases mf ef r with h3 | ⟨h3, he3⟩ <;>
    rcases conceptAndUnitAreMissing_cases mf ef r with h4 | ⟨h4, he4⟩ <;>
    simp_all [finalizeRow, Option.orElse]

lemma finalizeRow_toCheckResult (mf ef : List (String × Option String))
    (r : RowA) : (finalizeRow mf ef r).toCheckResult = r.toCheckResult := rfl

/-- Claim C5: a query error for one check instance is isolated: the runner
still returns a result for every selected instance, the erroring
instance's result carries the message with all numeric fields null, and
classification gives such a row `isError = 1` and skips the threshold and
applicability logic (`failed = passed = notApplicable = 0`). -/
theorem c5_query_error_isolated
    (runQuery : CheckDescription → RuleRow → Except String QueryOut)
    (desc : CheckDescription) (check : RuleRow) (msg : String)
    (table_checks field_checks concept_checks : List RuleRow)
    (lookup : CheckResult → Option ℚ × Option String)
    (rs : List CheckResult) (out : List Classified)
    (hq : runQuery desc check = .error msg)
    (hlv : desc.checkLevel = "TABLE")
    (hmem : check ∈ table_checks)
    (hfl : desc.evaluationFilter check = true)
    (h : evaluate_thresholds lookup rs = .ok out) :
    ((process_check runQuery desc check).error = some msg ∧
     (process_check runQuery desc check).numViolatedRows = none ∧
     (process_check runQuery desc check).pctViolatedRows = none ∧
     (process_check runQuery desc check).numDenominatorRows = none) ∧
    (∃ l, run_check runQuery desc table_checks field_checks concept_checks = .ok l ∧
      l.length = (table_checks.filter desc.evaluationFilter).length ∧
      process_check runQuery desc check ∈ l) ∧
    (∀ c ∈ out, c.error.isSome →
      c.IS_ERROR = 1 ∧ c.FAILED = 0 ∧ c.PASSED = 0 ∧ c.NOT_APPLICABLE = 0) := by
  refine ⟨?_, ?_, ?_⟩
  · simp [process_check, hq, record_result]
  · refine ⟨(table_checks.filter desc.evaluationFilter).map
        (process_check runQuery desc), ?_, by simp, ?_⟩
    · simp [run_check, hlv]
    · exact List.mem_map_of_mem _ (List.mem_filter.mpr ⟨hmem, hfl⟩)
  · intro c hc herr
    obtain ⟨-, -, hout⟩ := evaluate_thresholds_ok lookup rs out h
    subst hout
    rcases List.mem_map.mp hc with ⟨ra, hra, rfl⟩
    rcases List.mem_map.mp hra with ⟨x, -, rfl⟩
    have hxe : x.error.isSome := by
      have h1 : (finalizeRow (missingFieldsOf (rs.map (stageA lookup)))
          (emptyFieldsOf (missingFieldsOf (rs.map (stageA lookup)))
            (rs.map (stageA lookup))) (stageA lookup x)).error =
          (stageA lookup x).toCheckResult.error := rfl
      rw [h1, stageA_toCheckResult] at herr
      exact herr
    obtain ⟨hE, hF⟩ := stageA_of_error lookup x hxe
    have H := finalizeRow_of_error (missingFieldsOf (rs.map (stageA lookup)))
      (emptyFieldsOf (missingFieldsOf (rs.map (stageA lookup)))
        (rs.map (stageA lookup))) (stageA lookup x) hE hF
    exact ⟨H.1, H.2.1, H.2.2.1, H.2.2.2⟩

/-- Witness for C5 at a concrete erroring run. -/
theorem c5_query_error_isolated_witness :
    (process_check c5wQuery c5wDesc c5wRow).error = some "connection failed" ∧
    c5wOut.IS_ERROR = 1 ∧ c5wOut.FAILED = 0 ∧ c5wOut.PASSED = 0 ∧
    c5wOut.NOT_APPLICABLE = 0 := by
  have H := c5_query_error_isolated c5wQuery c5wDesc c5wRow "connection failed"
    [c5wRow] [] [] c5wLookup [c5wRes] [c5wOut] rfl rfl
    (List.mem_singleton.mpr rfl) rfl rfl
  have H3 := H.2.2 c5wOut (List.mem_singleton.mpr rfl) rfl
  exact ⟨H.1.1, H3.1, H3.2.1, H3.2.2.1, H3.2.2.2⟩

lemma finalizeRow_flags_toRowA (mf ef mf2 ef2 : List (String × Option String))
    (r : RowA) :
    fieldIsMissing mf2 (finalizeRow mf ef r).toRowA = fieldIsMissing mf2 r ∧
    fieldIsEmpty ef2 (finalizeRow mf ef r).toRowA = fieldIsEmpty ef2 r ∧
    conceptIsMissing mf2 ef2 (finalizeRow mf ef r).toRowA =
      conceptIsMissing mf2 ef2 r ∧
    conceptAndUnitAreMissing mf2 ef2 (finalizeRow mf ef r).toRowA =
      conceptAndUnitAreMissing mf2 ef2 r :=
  ⟨rfl, rfl, rfl, rfl⟩

lemma finalizeRow_napp_iff_reason (mf ef : List (String × Option String))
    (r : RowA) :
    ((finalizeRow mf ef r).NOT_APPLICABLE = 1 ↔
      (finalizeRow mf ef r).NOT_APPLICABLE_REASON ≠ none) := by
  rcases fieldIsMissing_cases mf r with h1 | ⟨h1, -⟩ <;>
    rcases fieldIsEmpty_cases ef r with h2 | ⟨h2, -⟩ <;>
    rcases conceptIsMissing_cases mf ef r with h3 | ⟨h3, -⟩ <;>
    rcases conceptAndUnitAreMissing_cases mf ef r with h4 | ⟨h4, -⟩ <;>
    simp_all [finalizeRow, Option.orElse]

lemma finalizeRow_reason_priority (mf ef : List (String × Option String))
    (r : RowA) : ReasonFromPriority mf ef (finalizeRow mf ef r) := by
  intro s hs
  obtain ⟨e1, e2, e3, e4⟩ := finalizeRow_flags_toRowA mf ef mf ef r
  rw [e1, e2, e3, e4]
  rcases fieldIsMissing_cases mf r with h1 | ⟨h1, -⟩ <;>
    rcases fieldIsEmpty_cases ef r with h2 | ⟨h2, -⟩ <;>
    rcases conceptIsMissing_cases mf ef r with h3 | ⟨h3, -⟩ <;>
    rcases conceptAndUnitAreMissing_cases mf ef r with h4 | ⟨h4, -⟩ <;>
    simp_all [finalizeRow, Option.orElse]

/-- Claim C10: after classification completes, `notApplicableReason` is
non-null exactly when `notApplicable = 1`, and when non-null it is the
sentence of the first applicability condition that holds for the row in
the priority order table-missing, field-missing, table-empty, field-empty,
concept-missing, concept-and-unit-missing.  On every completed run the
table-missing and table-empty conditions hold for no row (second and third
conjuncts): the classifier aborts whenever they would apply, so the first
applicable condition is always one of the remaining four. -/
theorem c10_not_applicable_reason
    (lookup : CheckResult → Option ℚ × Option String)
    (rs : List CheckResult) (out : List Classified)
    (h : evaluate_thresholds lookup rs = .ok out)
    (c : Classified) (hc : c ∈ out) :
    (c.NOT_APPLICABLE = 1 ↔ c.NOT_APPLICABLE_REASON ≠ none) ∧
    missingTablesOf (classifierRows lookup rs) = [] ∧
    emptyTablesOf (classifierMissingFields lookup rs)
      (classifierRows lookup rs) = [] ∧
    ReasonFromPriority (classifierMissingFields lookup rs)
      (classifierEmptyFields lookup rs) c := by
  obtain ⟨hmt, het, hout⟩ := evaluate_thresholds_ok lookup rs out h
  subst hout
  rcases List.mem_map.mp hc with ⟨ra, -, rfl⟩
  exact ⟨finalizeRow_napp_iff_reason _ _ ra, hmt, het,
    finalizeRow_reason_priority _ _ ra⟩

/-- Witness for C10 at a concrete run containing a field-missing cascade. -/
theorem c10_not_applicable_reason_witness :
    evaluate_thresholds c10wLookup [c10wFieldRes, c10wDepRes] =
      .ok [c10wOut1, c10wOut2] ∧
    c10wOut2 ∈ [c10wOut1, c10wOut2] ∧
    (c10wOut2.NOT_APPLICABLE = 1 ↔ c10wOut2.NOT_APPLICABLE_REASON ≠ none) ∧
    ReasonFromPriority (classifierMissingFields c10wLookup [c10wFieldRes, c10wDepRes])
      (classifierEmptyFields c10wLookup [c10wFieldRes, c10wDepRes]) c10wOut2 := by
  have H := c10_not_applicable_reason c10wLookup [c10wFieldRes, c10wDepRes]
    [c10wOut1, c10wOut2] rfl c10wOut2 (by simp)
  exact ⟨rfl, by simp, H.1, H.2.2.2⟩

lemma mem_filterByTables_exclude (tables_to_include tables_to_exclude : List String)
    (checks : List RuleRow) (r : RuleRow)
    (hr : r ∈ filterByTables tables_to_include tables_to_exclude checks)
    (e : String) (he : e ∈ tables_to_exclude) :
    r.cdmTableName ≠ upperString e := by
  have hlen : tables_to_exclude.length > 0 := by
    cases tables_to_exclude with
    | nil => simp at he
    | cons a t => simp
  simp only [filterByTables, if_pos hlen] at hr
  have hnot := of_decide_eq_true (List.mem_filter.mp hr).2
  intro heq
  exact hnot (heq ▸ List.mem_map_of_mem upperString he)

lemma process_check_cdmTableName
    (runQuery : CheckDescription → RuleRow → Except String QueryOut)
    (check_description : CheckDescription) (check : RuleRow) :
    (process_check runQuery check_description check).cdmTableName =
      check.cdmTableName := by
  unfold process_check
  cases runQuery check_description check <;> rfl

lemma run_check_mem_source
    (runQuery : CheckDescription → RuleRow → Except String QueryOut)
    (d : CheckDescription) (tc fc cc : List RuleRow) (l : List CheckResult)
    (h : run_check runQuery d tc fc cc = .ok l)
    (res : CheckResult) (hres : res ∈ l) :
    ∃ row, (row ∈ tc ∨ row ∈ fc ∨ row ∈ cc) ∧
      res.cdmTableName = row.cdmTableName := by
  unfold run_check at h
  split_ifs at h
  · injection h with h
    subst h
    rcases List.mem_map.mp hres with ⟨row, hrow, rfl⟩
    exact ⟨row, Or.inl (List.mem_of_mem_filter hrow),
      process_check_cdmTableName _ _ _⟩
  · injection h with h
    subst h
    rcases List.mem_map.mp hres with ⟨row, hrow, rfl⟩
    exact ⟨row, Or.inr (Or.inl (List.mem_of_mem_filter hrow)),
      process_check_cdmTableName _ _ _⟩
  · injection h with h
    subst h
    rcases List.mem_map.mp hres with ⟨row, hrow, rfl⟩
    exact ⟨row, Or.inr (Or.inr (List.mem_of_mem_filter hrow)),
      process_check_cdmTableName _ _ _⟩

lemma collectResults_mem_source
    (runQuery : CheckDescription → RuleRow → Except String QueryOut)
    (ds : List CheckDescription) (tc fc cc : List RuleRow)
    (l : List CheckResult) (h : collectResults runQuery ds tc fc cc = .ok l)
    (res : CheckResult) (hres : res ∈ l) :
    ∃ d ∈ ds, ∃ ld, run_check runQuery d tc fc cc = .ok ld ∧ res ∈ ld := by
  induction ds generalizing l with
  | nil =>
      simp only [collectResults] at h
      injection h with h
      subst h
      simp at hres
  | cons d rest ih =>
      simp only [collectResults] at h
      cases hr : run_check runQuery d tc fc cc with
      | error msg => rw [hr] at h; simp at h
      | ok ld =>
          rw [hr] at h
          cases hc2 : collectResults runQuery rest tc fc cc with
          | error msg => rw [hc2] at h; simp at h
          | ok lrest =>
              rw [hc2] at h
              simp only [Except.ok.injEq] at h
              subst h
              rcases List.mem_append.mp hres with h1 | h2
              · exact ⟨d, by simp, ld, hr, h1⟩
              · obtain ⟨d2, hd2, ld2, he1, he2⟩ := ih lrest hc2 h2
                exact ⟨d2, by simp [hd2], ld2, he1, he2⟩

lemma executeChecks_mem_source
    (runQuery : CheckDescription → RuleRow → Except String QueryOut)
    (tables_to_include tables_to_exclude check_names : List String)
    (check_descriptions : List CheckDescription)
    (tc fc cc : List RuleRow) (l : List CheckResult)
    (h : executeChecks runQuery tables_to_include tables_to_exclude check_names
      check_descriptions tc fc cc = .ok l)
    (res : CheckResult) (hres : res ∈ l) :
    ∃ row, (row ∈ filterByTables tables_to_include tables_to_exclude tc ∨
            row ∈ filterByTables tables_to_include tables_to_exclude fc ∨
            row ∈ filterByTables tables_to_include tables_to_exclude cc) ∧
      res.cdmTableName = row.cdmTableName := by
  simp only [executeChecks] at h
  generalize (if check_names.length > 0 then
      check_descriptions.filter (fun d => decide (d.checkName ∈ check_names))
    else check_descriptions) = filtered_descriptions at h
  split at h
  · exact absurd h (by simp)
  · obtain ⟨d, -, ld, hrun, hmem⟩ :=
      collectResults_mem_source runQuery _ _ _ _ _ h res hres
    obtain ⟨row, hrow, heq⟩ := run_check_mem_source runQuery d _ _ _ _ hrun res hmem
    refine ⟨row, ?_, heq⟩
    rcases hrow with h1 | h2 | h3
    · exact Or.inl h1
    · exact Or.inr (Or.inl (List.mem_of_mem_filter h2))
    · exact Or.inr (Or.inr h3)

/-- Claim C7: for every name in a non-empty exclude list, no result of the
run (which applies the same upper-cased exclusion to all three
rule-definition tables before any check executes) has that upper-cased
name as its `cdmTableName`. -/
theorem c7_excluded_tables_absent
    (runQuery : CheckDescription → RuleRow → Except String QueryOut)
    (lookup : CheckResult → Option ℚ × Option String)
    (tables_to_include tables_to_exclude check_names : List String)
    (check_descriptions : List CheckDescription)
    (table_checks field_checks concept_checks : List RuleRow)
    (e : String) (cls : List Classified) (ov : Overview)
    (he : e ∈ tables_to_exclude)
    (h : execute runQuery lookup tables_to_include tables_to_exclude
      check_names check_descriptions table_checks field_checks
      concept_checks = .ok (cls, ov)) :
    ∀ c ∈ cls, c.cdmTableName ≠ upperString e := by
  intro c hc
  simp only [execute] at h
  cases hraw : executeChecks runQuery tables_to_include tables_to_exclude
      check_names check_descriptions table_checks field_checks concept_checks with
  | error msg => rw [hraw] at h; simp at h
  | ok raw =>
      simp only [hraw] at h
      cases heval : evaluate_thresholds lookup raw with
      | error msg => simp only [heval] at h; simp at h
      | ok cls2 =>
          simp only [heval] at h
          simp only [Except.ok.injEq, Prod.mk.injEq] at h
          obtain ⟨hcls, -⟩ := h
          obtain ⟨-, -, hout⟩ := evaluate_thresholds_ok lookup raw cls2 heval
          have hc2 : c ∈ cls2 := by rw [hcls]; exact hc
          rw [hout] at hc2
          rcases List.mem_map.mp hc2 with ⟨ra, hra, rfl⟩
          rcases List.mem_map.mp hra with ⟨x, hx, rfl⟩
          have hpres : (finalizeRow (missingFieldsOf (raw.map (stageA lookup)))
              (emptyFieldsOf (missingFieldsOf (raw.map (stageA lookup)))
                (raw.map (stageA lookup))) (stageA lookup x)).cdmTableName =
              (stageA lookup x).toCheckResult.cdmTableName := rfl
          rw [hpres, stageA_toCheckResult]
          obtain ⟨row, hrow, heq⟩ := executeChecks_mem_source runQuery
            tables_to_include tables_to_exclude check_names check_descriptions
            table_checks field_checks concept_checks raw hraw x hx
          rw [heq]
          rcases hrow with h1 | h2 | h3
          · exact mem_filterByTables_exclude _ _ _ _ h1 e he
          · exact mem_filterByTables_exclude _ _ _ _ h2 e he
          · exact mem_filterByTables_exclude _ _ _ _ h3 e he

/-- Witness for C7 at a concrete run excluding `person`. -/
theorem c7_excluded_tables_absent_witness :
    "person" ∈ ["person"] ∧
    execute c7wQuery c7wLookup [] ["person"] [] [c7wDesc] c7wTables [] [] =
      .ok ([c7wOut], c7wOv) ∧
    ∀ c ∈ [c7wOut], c.cdmTableName ≠ upperString "person" :=
  ⟨List.mem_singleton.mpr rfl, rfl,
    c7_excluded_tables_absent c7wQuery c7wLookup [] ["person"] [] [c7wDesc]
      c7wTables [] [] "person" [c7wOut] c7wOv (List.mem_singleton.mpr rfl) rfl⟩

lemma noDoubleUnderscore_iff_chain (l : List Char) :
    noDoubleUnderscore l = true ↔
      l.Chain' (fun a b => ¬(a = '_' ∧ b = '_')) := by
  induction l with
  | nil => simp [noDoubleUnderscore]
  | cons a t ih =>
      cases t with
      | nil => simp [noDoubleUnderscore]
      | cons b t2 =>
          rw [noDoubleUnderscore, List.chain'_cons]
          simp only [Bool.and_eq_true, Bool.not_eq_true', Bool.and_eq_false_iff,
            ih, decide_eq_false_iff_not, decide_eq_true_eq]
          constructor
          · rintro ⟨h1, h2⟩
            refine ⟨fun hand => ?_, h2⟩
            rcases h1 with h1 | h1
            · exact h1 hand.1
            · exact h1 hand.2
          · rintro ⟨h1, h2⟩
            refine ⟨?_, h2⟩
            by_cases ha : a = '_'
            · exact Or.inr fun hb => h1 ⟨ha, hb⟩
            · exact Or.inl ha

lemma intercalate_singleton_eq {α : Type} (s a : List α) :
    List.intercalate s [a] = a := by
  simp [List.intercalate]

lemma intercalate_cons_cons_eq {α : Type} (s a b : List α) (t : List (List α)) :
    List.intercalate s (a :: b :: t) = a ++ s ++ List.intercalate s (b :: t) := by
  simp [List.intercalate, List.intersperse_cons_cons]

lemma map_intercalate_underscore (f : Char → Char) (ls : List (List Char)) :
    (List.intercalate ['_'] ls).map f =
      List.intercalate [f '_'] (ls.map (List.map f)) := by
  induction ls with
  | nil => simp [List.intercalate]
  | cons a t ih =>
      cases t with
      | nil => simp [intercalate_singleton_eq]
      | cons b t2 =>
          simp only [List.map_cons, List.map_nil, intercalate_cons_cons_eq,
            List.map_append, ih]

lemma lowerString_eq_empty_iff (s : String) : lowerString s = "" ↔ s = "" := by
  rw [String.ext_iff, String.ext_iff]
  show s.data.map Char.toLower = [] ↔ s.data = []
  simp

lemma components_eq (C : List String) :
    (List.filter (fun s => s ≠ "") (C.map removeSpaces)).map lowerString =
      List.filter (fun s => s ≠ "")
        (C.map (fun s => lowerString (removeSpaces s))) := by
  induction C with
  | nil => rfl
  | cons a t ih =>
      simp only [List.map_cons, List.filter_cons]
      by_cases h : removeSpaces a = ""
      · have h2 : lowerString (removeSpaces a) = "" :=
          (lowerString_eq_empty_iff _).mpr h
        simpa [h, h2] using ih
      · have h2 : lowerString (removeSpaces a) ≠ "" := fun hc =>
          h ((lowerString_eq_empty_iff _).mp hc)
        simpa [h, h2] using ih

lemma ne_empty_data (s : String) (h : s ≠ "") : s.data ≠ [] := by
  intro hd
  exact h (String.ext_iff.mpr hd)

lemma intercalate_noStray_aux (b : List Char) (t : List (List Char))
    (hb : b ≠ []) (hbs : NoStray b)
    (ht : ∀ l ∈ t, l ≠ [] ∧ NoStray l) :
    List.intercalate ['_'] (b :: t) ≠ [] ∧
    (List.intercalate ['_'] (b :: t)).head? = b.head? ∧
    (List.intercalate ['_'] (b :: t)).getLast? ≠ some '_' ∧
    (List.intercalate ['_'] (b :: t)).Chain' (fun a c => ¬(a = '_' ∧ c = '_')) := by
  induction t generalizing b with
  | nil =>
      rw [intercalate_singleton_eq]
      exact ⟨hb, rfl, hbs.2.1, (noDoubleUnderscore_iff_chain b).mp hbs.2.2⟩
  | cons c t2 ih =>
      obtain ⟨hc, hcs⟩ := ht c (by simp)
      have ht2 : ∀ l ∈ t2, l ≠ [] ∧ NoStray l := fun l hl => ht l (by simp [hl])
      obtain ⟨hM, hHead, hLast, hChain⟩ := ih c hc hcs ht2
      rw [intercalate_cons_cons_eq]
      rw [show b ++ ['_'] ++ List.intercalate ['_'] (c :: t2) =
        b ++ ('_' :: List.intercalate ['_'] (c :: t2)) by simp]
      refine ⟨by simp [hb], ?_, ?_, ?_⟩
      · exact List.head?_append_of_ne_nil b hb
      · rw [List.getLast?_append_of_ne_nil b (by simp)]
        rw [show ('_' :: List.intercalate ['_'] (c :: t2)) =
          ['_'] ++ List.intercalate ['_'] (c :: t2) by simp]
        rw [List.getLast?_append_of_ne_nil _ hM]
        exact hLast
      · rw [List.chain'_append]
        refine ⟨(noDoubleUnderscore_iff_chain b).mp hbs.2.2, ?_, ?_⟩
        · rw [List.chain'_cons']
          refine ⟨?_, hChain⟩
          intro y hy
          rw [hHead] at hy
          have hyne : y ≠ '_' := by
            intro hcontra
            exact hcs.1 (by rw [← hcontra]; exact (Option.mem_def.mp hy).symm ▸ rfl)
          exact fun hand => hyne hand.2
        · intro x hx y hy
          have hxne : x ≠ '_' := by
            intro hcontra
            exact hbs.2.1 (by rw [← hcontra]; exact (Option.mem_def.mp hx).symm ▸ rfl)
          exact fun hand => hxne hand.1

lemma intercalate_noStray (ls : List (List Char))
    (h : ∀ l ∈ ls, l ≠ [] ∧ NoStray l) :
    NoStray (List.intercalate ['_'] ls) := by
  cases ls with
  | nil =>
      refine ⟨by simp [List.intercalate], by simp [List.intercalate], ?_⟩
      rw [show List.intercalate ['_'] ([] : List (List Char)) = [] by
        simp [List.intercalate]]
      rfl
  | cons b t =>
      obtain ⟨hb, hbs⟩ := h b (by simp)
      have ht : ∀ l ∈ t, l ≠ [] ∧ NoStray l := fun l hl => h l (by simp [hl])
      obtain ⟨-, hHead, hLast, hChain⟩ := intercalate_noStray_aux b t hb hbs ht
      exact ⟨by rw [hHead]; exact hbs.1, hLast,
        (noDoubleUnderscore_iff_chain _).mpr hChain⟩

/-- Claim C6: `get_check_id` is a pure function of its six inputs (identical
inputs give the identical id — in this embedding it is a function, so this
is the first, reflexive conjunct); the id's characters are exactly the
underscore-intercalation of the lower-cased, space-stripped components,
omitting components that are null or empty after space removal (so an
omitted component never leaves an empty segment); and whenever no
surviving component itself carries a leading, trailing or doubled
underscore, neither does the id. -/
theorem c6_check_id_pure (check_level check_name cdm_table_name : String)
    (cdm_field_name : Option String) (concept_id unit_concept_id : Option Int) :
    get_check_id check_level check_name cdm_table_name cdm_field_name
        concept_id unit_concept_id =
      get_check_id check_level check_name cdm_table_name cdm_field_name
        concept_id unit_concept_id ∧
    (get_check_id check_level check_name cdm_table_name cdm_field_name
        concept_id unit_concept_id).data =
      List.intercalate ['_']
        ((check_id_components check_level check_name cdm_table_name
          cdm_field_name concept_id unit_concept_id).map String.data) ∧
    ((∀ s ∈ check_id_components check_level check_name cdm_table_name
        cdm_field_name concept_id unit_concept_id, NoStray s.data) →
      NoStray (get_check_id check_level check_name cdm_table_name
        cdm_field_name concept_id unit_concept_id).data) := by
  have hmain : (get_check_id check_level check_name cdm_table_name
      cdm_field_name concept_id unit_concept_id).data =
      List.intercalate ['_']
        ((check_id_components check_level check_name cdm_table_name
          cdm_field_name concept_id unit_concept_id).map String.data) := by
    show (List.intercalate ['_']
        (((([some check_level, some check_name, some cdm_table_name,
            cdm_field_name, concept_id.map toString,
            unit_concept_id.map toString].filterMap id).map removeSpaces).filter
          (fun s => s ≠ "")).map String.data)).map Char.toLower = _
    rw [map_intercalate_underscore,
      show Char.toLower '_' = '_' from by decide]
    congr 1
    rw [List.map_map,
      show (List.map Char.toLower ∘ String.data) =
        (String.data ∘ lowerString) from rfl,
      ← List.map_map]
    congr 1
    unfold check_id_components
    exact components_eq _
  refine ⟨rfl, hmain, ?_⟩
  intro hcomp
  rw [hmain]
  apply intercalate_noStray
  intro l hl
  rcases List.mem_map.mp hl with ⟨s, hs, rfl⟩
  refine ⟨?_, hcomp s hs⟩
  have hne : s ≠ "" := by
    have := (List.mem_filter.mp hs).2
    simpa using this
  exact ne_empty_data s hne

/-- Witness for C6 at a concrete field-level check instance. -/
theorem c6_check_id_pure_witness :
    get_check_id "FIELD" "measureValueCompleteness" "PERSON"
        (some "birth_datetime") none none =
      "field_measurevaluecompleteness_person_birth_datetime" ∧
    (∀ s ∈ check_id_components "FIELD" "measureValueCompleteness" "PERSON"
        (some "birth_datetime") none none, NoStray s.data) ∧
    NoStray (get_check_id "FIELD" "measureValueCompleteness" "PERSON"
        (some "birth_datetime") none none).data :=
  ⟨rfl, by decide,
    (c6_check_id_pure "FIELD" "measureValueCompleteness" "PERSON"
      (some "birth_datetime") none none).2.2 (by decide)⟩
